import Mathlib

/-!
# Verification of the netgen traffic-generator core

A shallow embedding, in Lean 4, of the parts of the netgen repository that
the frozen claims talk about:

* the TCP packet codec (`src/protocols/tcp/tcp_packet.py`);
* the BGP message codec (`src/protocols/bgp/bgp_routing.py`);
* the stateful TCP connection machine (`src/protocols/tcp/tcp_connection.py`);
* the impairment burst-loss process
  (`src/testing/impairments/network_impairments.py`);
* the per-profile worker batch sizing (`src/traffic_engine_unified.py`);
* the RFC 2544 throughput binary search (`src/traffic_engine.py`);
* the packet memory pool (`src/traffic_engine_highperf.py`).

Conventions used throughout:

* Python `bytes` values are `List Nat` with every element below 256.
* `struct.pack` calls are `Option`-valued: `none` models the `struct.error`
  exception raised when an argument is out of range for its format code.
  Likewise a parser that can raise is `Except Unit`-valued, with `.error ()`
  modelling an escaping exception, while a parser that returns `None` as a
  value (as `BGPMessage.parse` does) is `Option`-valued.
* Wall-clock timestamps and RTT quantities (Python floats used only for
  arithmetic and comparison) are rationals.
* Calls to `random.*` are made explicit: each random draw consumed by a
  function is an argument of the Lean function (for instance the IPv4
  identification field drawn by `_build_ip_header`, and the uniform draws
  consumed by the impairment drop decision).
-/

namespace Netgen

/-! ## Byte packing primitives (`struct.pack` / `struct.unpack`) -/

/-- `struct.pack('!B', n)`: one big-endian byte; raises unless `n < 2^8`. -/
def pack8 (n : Nat) : Option (List Nat) :=
  if n < 256 then some [n] else none

/-- `struct.pack('!H', n)`: two big-endian bytes; raises unless `n < 2^16`. -/
def pack16 (n : Nat) : Option (List Nat) :=
  if n < 65536 then some [n / 256, n % 256] else none

/-- `struct.pack('!I', n)`: four big-endian bytes; raises unless `n < 2^32`. -/
def pack32 (n : Nat) : Option (List Nat) :=
  if n < 4294967296 then
    some [n / 16777216, n / 65536 % 256, n / 256 % 256, n % 256]
  else none

theorem pack8_eq_some {n : Nat} {l : List Nat} (h : pack8 n = some l) :
    n < 256 ∧ l = [n] := by
  unfold pack8 at h
  split at h
  · exact ⟨by assumption, (Option.some.injEq _ _ ▸ h).symm⟩
  · cases h

theorem pack8_of_lt {n : Nat} (h : n < 256) : pack8 n = some [n] := by
  simp [pack8, h]

theorem pack16_of_lt {n : Nat} (h : n < 65536) :
    pack16 n = some [n / 256, n % 256] := by
  simp [pack16, h]

theorem pack32_of_lt {n : Nat} (h : n < 4294967296) :
    pack32 n = some [n / 16777216, n / 65536 % 256, n / 256 % 256, n % 256] := by
  simp [pack32, h]

theorem pack16_eq_some {n : Nat} {l : List Nat} (h : pack16 n = some l) :
    n < 65536 ∧ l = [n / 256, n % 256] := by
  unfold pack16 at h
  split at h
  · exact ⟨by assumption, (Option.some.injEq _ _ ▸ h).symm⟩
  · cases h

theorem pack32_eq_some {n : Nat} {l : List Nat} (h : pack32 n = some l) :
    n < 4294967296 ∧
      l = [n / 16777216, n / 65536 % 256, n / 256 % 256, n % 256] := by
  unfold pack32 at h
  split at h
  · exact ⟨by assumption, (Option.some.injEq _ _ ▸ h).symm⟩
  · cases h

/-- Big-endian 16-bit recomposition recovers the packed value. -/
theorem unpack16_pack16 (n : Nat) :
    n / 256 * 256 + n % 256 = n := by omega

/-- Big-endian 32-bit recomposition recovers the packed value. -/
theorem unpack32_pack32 (n : Nat) :
    n / 16777216 * 16777216 + n / 65536 % 256 * 65536 +
      n / 256 % 256 * 256 + n % 256 = n := by omega

/-! ## One's-complement checksum (`_calculate_tcp_checksum`, IP header sum) -/

/-- Group a byte list into big-endian 16-bit words, as the checksum loops do
after padding to even length. -/
def toWords : List Nat → List Nat
  | [] => []
  | [a] => [a * 256]
  | a :: b :: rest => (a * 256 + b) :: toWords rest

/-- Pad a byte string with a zero byte when its length is odd, as the TCP
checksum does before summation. -/
def padEven (l : List Nat) : List Nat :=
  if l.length % 2 = 1 then l ++ [0] else l

/-- The running one's-complement sum with per-step end-around carry:
`checksum = (checksum & 0xffff) + (checksum >> 16)` after each addition. -/
def onesSum (ws : List Nat) : Nat :=
  ws.foldl (fun acc w => (acc + w) % 65536 + (acc + w) / 65536) 0

/-- `~checksum & 0xffff` on a Python int. -/
def complement16 (n : Nat) : Nat := 65535 - n % 65536

theorem complement16_lt (n : Nat) : complement16 n < 65536 := by
  unfold complement16; omega

/-- Packing a complemented checksum always succeeds. -/
theorem pack16_complement16 (n : Nat) :
    pack16 (complement16 n) = some [complement16 n / 256, complement16 n % 256] :=
  pack16_of_lt (complement16_lt n)

/-! ## TCP/IPv4 packet codec (`tcp_packet.py`)

An IPv4 address is kept as its four octets: `socket.inet_aton` /
`socket.inet_ntoa` translate between the canonical dotted-quad string and
exactly these four bytes, bijectively on canonical addresses, so the string
form adds nothing to the wire-format model. -/

structure IPv4 where
  o1 : Nat
  o2 : Nat
  o3 : Nat
  o4 : Nat
deriving DecidableEq, Repr

/-- The four network-order bytes produced by `socket.inet_aton`. -/
def IPv4.bytes (a : IPv4) : List Nat := [a.o1, a.o2, a.o3, a.o4]

/-- Every octet of a canonical address is a byte. -/
def IPv4.Valid (a : IPv4) : Prop :=
  a.o1 < 256 ∧ a.o2 < 256 ∧ a.o3 < 256 ∧ a.o4 < 256

instance (a : IPv4) : Decidable a.Valid := by
  unfold IPv4.Valid; infer_instance

/-- The constructor arguments of `TCPPacket.__init__`: addresses, ports,
sequence/acknowledgment numbers, flags, window, payload and the option list
(`options` entries are `(kind, raw_value_bytes)` pairs exactly as in the
source). -/
structure TCPPacket where
  srcIp : IPv4
  dstIp : IPv4
  srcPort : Nat
  dstPort : Nat
  seqNum : Nat
  ackNum : Nat
  flags : Nat
  window : Nat
  data : List Nat
  options : List (Nat × List Nat)
deriving DecidableEq, Repr

/-- `TCPPacket._build_options`: the option-encoding loop, with `break` on
END_OF_OPTIONS (kind 0), NOP (1) as a single byte, MSS (2) unpacking then
repacking a 16-bit value, WINDOW_SCALE (3) a one-byte shift, SACK_PERMITTED
(4) with no value, TIMESTAMP (8) two 32-bit values, and a generic TLV
otherwise.  `none` models a `struct` exception on malformed option data. -/
def buildOptions : List (Nat × List Nat) → Option (List Nat)
  | [] => some []
  | (kind, value) :: rest =>
    if kind = 0 then some []
    else if kind = 1 then do
      let tail ← buildOptions rest
      some (1 :: tail)
    else if kind = 2 then
      match value with
      | [a, b] => do
        let mss ← pack16 (a * 256 + b)
        let tail ← buildOptions rest
        some ([2, 4] ++ mss ++ tail)
      | _ => none
    else if kind = 3 then
      match value with
      | [s] => do
        let shift ← pack8 s
        let tail ← buildOptions rest
        some ([3, 3] ++ shift ++ tail)
      | _ => none
    else if kind = 4 then do
      let tail ← buildOptions rest
      some ([4, 2] ++ tail)
    else if kind = 8 then
      match value with
      | [a1, a2, a3, a4, b1, b2, b3, b4] => do
        let v1 ← pack32 (a1 * 16777216 + a2 * 65536 + a3 * 256 + a4)
        let v2 ← pack32 (b1 * 16777216 + b2 * 65536 + b3 * 256 + b4)
        let tail ← buildOptions rest
        some ([8, 10] ++ v1 ++ v2 ++ tail)
      | _ => none
    else do
      let k ← pack8 kind
      let len ← pack8 (2 + value.length)
      let tail ← buildOptions rest
      some (k ++ len ++ value ++ tail)

/-- The pseudo-header + segment checksum of `_calculate_tcp_checksum`.
The pseudo-header packs the two addresses, a zero byte, `IPPROTO_TCP = 6`
and the 16-bit segment length (whose `struct.pack` range check is the
caller's `pack16`). -/
def tcpChecksum (src dst : IPv4) (lenBytes seg : List Nat) : Nat :=
  complement16 (onesSum (toWords
    (padEven (src.bytes ++ dst.bytes ++ [0, 6] ++ lenBytes ++ seg))))

theorem tcpChecksum_lt (src dst : IPv4) (lenBytes seg : List Nat) :
    tcpChecksum src dst lenBytes seg < 65536 :=
  complement16_lt _

/-- Packing a TCP checksum always succeeds. -/
theorem pack16_tcpChecksum (src dst : IPv4) (lenBytes seg : List Nat) :
    pack16 (tcpChecksum src dst lenBytes seg) =
      some [tcpChecksum src dst lenBytes seg / 256,
            tcpChecksum src dst lenBytes seg % 256] :=
  pack16_of_lt (tcpChecksum_lt src dst lenBytes seg)

/-- `TCPPacket._build_tcp_header` exactly as written: the first pass packs
`'!HHIIBBHHH'` (nine codes, nine values) with a zero checksum, the checksum
is computed over it plus the payload — and then the rebuild calls
`struct.pack('!HHIIBBH', src, dst, seq, ack, off, flags, window, checksum)`:
EIGHT values for a SEVEN-code format.  That call raises
`struct.error: pack expected 7 items for packing (got 8)` unconditionally,
so the method never returns a header; the final `none` models that raise.
(All `struct` work preceding the failing call is kept so that any earlier
out-of-range argument raises first, as in Python.) -/
def TCPPacket.buildTcpHeader (p : TCPPacket) : Option (List Nat) := do
  let ob ← buildOptions p.options
  let headerLen := 20 + ob.length
  let dataOffset := (headerLen + 3) / 4
  let padded := ob ++ List.replicate (dataOffset * 4 - headerLen) 0
  let sp ← pack16 p.srcPort
  let dp ← pack16 p.dstPort
  let sq ← pack32 p.seqNum
  let ak ← pack32 p.ackNum
  let off ← pack8 (dataOffset <<< 4)
  let fl ← pack8 p.flags
  let win ← pack16 p.window
  let zeroHeader := sp ++ dp ++ sq ++ ak ++ off ++ fl ++ win ++
    [0, 0] ++ [0, 0] ++ padded
  let lenBytes ← pack16 (zeroHeader.length + p.data.length)
  let _ck ← pack16 (tcpChecksum p.srcIp p.dstIp lenBytes (zeroHeader ++ p.data))
  none

/-- A bind into an always-failing continuation fails. -/
theorem option_bind_none {α β : Type} (x : Option α) (f : α → Option β)
    (h : ∀ a, f a = none) : x >>= f = none := by
  cases x with
  | none => rfl
  | some a => exact h a

/-- Every call of `TCPPacket._build_tcp_header` raises: the rebuild's
format string `'!HHIIBBH'` has seven codes but is given eight values. -/
theorem buildTcpHeader_eq_none (p : TCPPacket) : p.buildTcpHeader = none := by
  unfold TCPPacket.buildTcpHeader
  refine option_bind_none _ _ fun ob => ?_
  refine option_bind_none _ _ fun sp => ?_
  refine option_bind_none _ _ fun dp => ?_
  refine option_bind_none _ _ fun sq => ?_
  refine option_bind_none _ _ fun ak => ?_
  refine option_bind_none _ _ fun off => ?_
  refine option_bind_none _ _ fun fl => ?_
  refine option_bind_none _ _ fun win => ?_
  refine option_bind_none _ _ fun lenBytes => ?_
  refine option_bind_none _ _ fun ck => ?_
  rfl

/-- `TCPPacket._build_tcp_header` with the rebuild's evident intent — the
format `'!HHIIBBHH'` whose layout the first pass, the separately packed
urgent pointer and `TCPPacket.parse` all agree on (the source merely
dropped one `H`): fixed 20-byte header, options padded to a 4-byte
boundary, checksum computed over the zero-checksum header plus the payload,
then the header rebuilt with the checksum in place. -/
def TCPPacket.buildTcpHeaderFixed (p : TCPPacket) : Option (List Nat) := do
  let ob ← buildOptions p.options
  let headerLen := 20 + ob.length
  let dataOffset := (headerLen + 3) / 4
  let padded := ob ++ List.replicate (dataOffset * 4 - headerLen) 0
  let sp ← pack16 p.srcPort
  let dp ← pack16 p.dstPort
  let sq ← pack32 p.seqNum
  let ak ← pack32 p.ackNum
  let off ← pack8 (dataOffset <<< 4)
  let fl ← pack8 p.flags
  let win ← pack16 p.window
  let zeroHeader := sp ++ dp ++ sq ++ ak ++ off ++ fl ++ win ++
    [0, 0] ++ [0, 0] ++ padded
  let lenBytes ← pack16 (zeroHeader.length + p.data.length)
  let ck ← pack16 (tcpChecksum p.srcIp p.dstIp lenBytes (zeroHeader ++ p.data))
  some (sp ++ dp ++ sq ++ ak ++ off ++ fl ++ win ++ ck ++ [0, 0] ++ padded)

/-- `TCPPacket._build_ip_header`: a 20-byte IPv4 header with version/IHL
`0x45`, ToS 0, the random identification field made an explicit argument,
don't-fragment flags `0x4000`, TTL 64, protocol 6, and the one's-complement
header checksum. -/
def TCPPacket.buildIpHeader (p : TCPPacket) (payloadLen ident : Nat) :
    Option (List Nat) := do
  let tl ← pack16 (20 + payloadLen)
  let idb ← pack16 ident
  let zeroHeader := [69, 0] ++ tl ++ idb ++ [64, 0, 64, 6] ++ [0, 0] ++
    p.srcIp.bytes ++ p.dstIp.bytes
  let ck ← pack16 (complement16 (onesSum (toWords zeroHeader)))
  some ([69, 0] ++ tl ++ idb ++ [64, 0, 64, 6] ++ ck ++
    p.srcIp.bytes ++ p.dstIp.bytes)

/-- `TCPPacket.build` exactly as written: it calls `_build_tcp_header`
first, which always raises (see `TCPPacket.buildTcpHeader`), so `build`
itself always raises — no TCP packet is ever successfully built by the
source as it stands. -/
def TCPPacket.build (p : TCPPacket) (ident : Nat) : Option (List Nat) := do
  let tcpHeader ← p.buildTcpHeader
  let ipHeader ← p.buildIpHeader (tcpHeader.length + p.data.length) ident
  some (ipHeader ++ tcpHeader ++ p.data)

/-- `TCPPacket.build` over the corrected header rebuild: IP header, then
TCP header, then payload. -/
def TCPPacket.buildFixed (p : TCPPacket) (ident : Nat) : Option (List Nat) := do
  let tcpHeader ← p.buildTcpHeaderFixed
  let ipHeader ← p.buildIpHeader (tcpHeader.length + p.data.length) ident
  some (ipHeader ++ tcpHeader ++ p.data)

/-- Every call of `TCPPacket.build` raises, via `_build_tcp_header`. -/
theorem build_eq_none (p : TCPPacket) (ident : Nat) : p.build ident = none := by
  unfold TCPPacket.build
  rw [buildTcpHeader_eq_none]
  rfl

/-- The dictionary returned by `TCPPacket.parse`. -/
structure ParsedTCP where
  srcIp : IPv4
  dstIp : IPv4
  srcPort : Nat
  dstPort : Nat
  seqNum : Nat
  ackNum : Nat
  flags : Nat
  window : Nat
  data : List Nat
  hasSyn : Bool
  hasAck : Bool
  hasFin : Bool
  hasRst : Bool
  hasPsh : Bool
deriving DecidableEq, Repr

/-- `TCPPacket.parse`: unpacks a fixed 20-byte IP header and the 20-byte
fixed TCP header, then slices the payload at `20 + data_offset`.  On a buffer
shorter than 40 bytes one of the two `struct.unpack` calls raises
`struct.error`; `.error ()` models that escaping exception. -/
def tcpParse (bs : List Nat) : Except Unit ParsedTCP :=
  match bs with
  | _b0 :: _b1 :: _b2 :: _b3 :: _b4 :: _b5 :: _b6 :: _b7 :: _b8 :: _b9 ::
    _b10 :: _b11 :: b12 :: b13 :: b14 :: b15 :: b16 :: b17 :: b18 :: b19 ::
    b20 :: b21 :: b22 :: b23 :: b24 :: b25 :: b26 :: b27 :: b28 :: b29 ::
    b30 :: b31 :: b32 :: b33 :: b34 :: b35 :: _b36 :: _b37 :: _b38 :: _b39 ::
    _rest =>
    .ok {
      srcIp := ⟨b12, b13, b14, b15⟩
      dstIp := ⟨b16, b17, b18, b19⟩
      srcPort := b20 * 256 + b21
      dstPort := b22 * 256 + b23
      seqNum := b24 * 16777216 + b25 * 65536 + b26 * 256 + b27
      ackNum := b28 * 16777216 + b29 * 65536 + b30 * 256 + b31
      flags := b33
      window := b34 * 256 + b35
      data := bs.drop (20 + (b32 >>> 4) * 4)
      hasSyn := b33 &&& 2 != 0
      hasAck := b33 &&& 16 != 0
      hasFin := b33 &&& 1 != 0
      hasRst := b33 &&& 4 != 0
      hasPsh := b33 &&& 8 != 0 }
  | _ => .error ()

/-- The twenty bytes of a built IPv4 header, with the total-length,
identification and checksum bytes abstracted. -/
def ipHeaderBytes (src dst : IPv4) (t0 t1 i0 i1 c0 c1 : Nat) : List Nat :=
  [69, 0, t0, t1, i0, i1, 64, 0, 64, 6, c0, c1] ++ src.bytes ++ dst.bytes

theorem ipHeaderBytes_length (src dst : IPv4) (t0 t1 i0 i1 c0 c1 : Nat) :
    (ipHeaderBytes src dst t0 t1 i0 i1 c0 c1).length = 20 := by
  simp [ipHeaderBytes, IPv4.bytes]

/-- The shape of a successfully built IPv4 header: bytes 12–19 carry the two
addresses; the length, identification and checksum bytes exist but are not
re-read by `TCPPacket.parse`. -/
theorem buildIpHeader_shape (p : TCPPacket) (payloadLen ident : Nat)
    (htl : 20 + payloadLen < 65536) (hident : ident < 65536) :
    ∃ t0 t1 i0 i1 c0 c1,
      p.buildIpHeader payloadLen ident =
        some (ipHeaderBytes p.srcIp p.dstIp t0 t1 i0 i1 c0 c1) := by
  unfold TCPPacket.buildIpHeader
  rw [pack16_of_lt htl, pack16_of_lt hident]
  simp only [Option.bind_eq_bind, Option.some_bind]
  rw [pack16_complement16]
  simp only [Option.some_bind]
  exact ⟨_, _, _, _, _, _, rfl⟩

/-- The data offset encoded for an option byte string of length `n`:
`(20 + n + 3) // 4` 32-bit words. -/
def dataOffsetFor (n : Nat) : Nat := (20 + n + 3) / 4

theorem dataOffsetFor_mul_ge (n : Nat) : 20 + n ≤ dataOffsetFor n * 4 := by
  unfold dataOffsetFor; omega

/-- The twenty fixed bytes of a built TCP header, with the data-offset byte
and checksum bytes abstracted. -/
def fixedTcpBytes (p : TCPPacket) (offByte c0 c1 : Nat) : List Nat :=
  [p.srcPort / 256, p.srcPort % 256, p.dstPort / 256, p.dstPort % 256,
   p.seqNum / 16777216, p.seqNum / 65536 % 256,
   p.seqNum / 256 % 256, p.seqNum % 256,
   p.ackNum / 16777216, p.ackNum / 65536 % 256,
   p.ackNum / 256 % 256, p.ackNum % 256,
   offByte, p.flags, p.window / 256, p.window % 256, c0, c1, 0, 0]

theorem fixedTcpBytes_length (p : TCPPacket) (offByte c0 c1 : Nat) :
    (fixedTcpBytes p offByte c0 c1).length = 20 := by
  simp [fixedTcpBytes]

/-- The option bytes padded with zeros up to the 4-byte header boundary. -/
def paddedOptions (ob : List Nat) : List Nat :=
  ob ++ List.replicate (dataOffsetFor ob.length * 4 - (20 + ob.length)) 0

theorem paddedOptions_length (ob : List Nat) :
    (paddedOptions ob).length = dataOffsetFor ob.length * 4 - 20 := by
  have := dataOffsetFor_mul_ge ob.length
  simp only [paddedOptions, List.length_append, List.length_replicate]
  omega

/-- The shape of a successfully built TCP header: the sixteen fixed field
bytes, two checksum bytes, the zero urgent pointer, then the padded options. -/
theorem buildTcpHeaderFixed_shape (p : TCPPacket) (ob : List Nat)
    (hob : buildOptions p.options = some ob)
    (hsp : p.srcPort < 65536) (hdp : p.dstPort < 65536)
    (hsq : p.seqNum < 4294967296) (hak : p.ackNum < 4294967296)
    (hoff : dataOffsetFor ob.length <<< 4 < 256)
    (hfl : p.flags < 256) (hwin : p.window < 65536)
    (hseg : dataOffsetFor ob.length * 4 + p.data.length < 65536) :
    ∃ c0 c1,
      p.buildTcpHeaderFixed =
        some (fixedTcpBytes p (dataOffsetFor ob.length <<< 4) c0 c1 ++
          paddedOptions ob) := by
  have hoff' : ((20 + ob.length + 3) / 4) <<< 4 < 256 := by
    unfold dataOffsetFor at hoff; exact hoff
  have hlen : ([p.srcPort / 256, p.srcPort % 256] ++
      [p.dstPort / 256, p.dstPort % 256] ++
      [p.seqNum / 16777216, p.seqNum / 65536 % 256,
       p.seqNum / 256 % 256, p.seqNum % 256] ++
      [p.ackNum / 16777216, p.ackNum / 65536 % 256,
       p.ackNum / 256 % 256, p.ackNum % 256] ++
      [((20 + ob.length + 3) / 4) <<< 4] ++ [p.flags] ++
      [p.window / 256, p.window % 256] ++ [0, 0] ++ [0, 0] ++
      (ob ++ List.replicate ((20 + ob.length + 3) / 4 * 4 -
        (20 + ob.length)) 0)).length + p.data.length < 65536 := by
    simp only [List.length_append, List.length_cons, List.length_nil,
      List.length_replicate]
    have := dataOffsetFor_mul_ge ob.length
    unfold dataOffsetFor at this hseg
    omega
  unfold TCPPacket.buildTcpHeaderFixed
  rw [hob]
  simp only [Option.bind_eq_bind, Option.some_bind]
  rw [pack16_of_lt hsp, pack16_of_lt hdp, pack32_of_lt hsq, pack32_of_lt hak]
  simp only [Option.some_bind]
  rw [pack8_of_lt hoff', pack8_of_lt hfl, pack16_of_lt hwin]
  simp only [Option.some_bind]
  rw [pack16_of_lt hlen]
  simp only [Option.some_bind]
  rw [pack16_tcpChecksum]
  simp only [Option.some_bind]
  unfold dataOffsetFor
  exact ⟨_, _, rfl⟩

/-- Writing then reading the 4-bit data offset recovers it. -/
theorem shiftLeft_shiftRight_four (d : Nat) : d <<< 4 >>> 4 = d := by
  simp [Nat.shiftLeft_eq, Nat.shiftRight_eq_div_pow]

/-- A record is *buildable* when every field fits the `struct` format codes
used by `TCPPacket.build`: this is exactly the set of inputs on which no
`struct.pack` call raises. -/
def TCPPacket.Buildable (p : TCPPacket) (ident : Nat) (ob : List Nat) : Prop :=
  buildOptions p.options = some ob ∧
  p.srcPort < 65536 ∧ p.dstPort < 65536 ∧
  p.seqNum < 4294967296 ∧ p.ackNum < 4294967296 ∧
  dataOffsetFor ob.length <<< 4 < 256 ∧
  p.flags < 256 ∧ p.window < 65536 ∧ ident < 65536 ∧
  20 + dataOffsetFor ob.length * 4 + p.data.length < 65536

instance (p : TCPPacket) (ident : Nat) (ob : List Nat) :
    Decidable (p.Buildable ident ob) := by
  unfold TCPPacket.Buildable; infer_instance

/-- Round trip of the TCP/IPv4 codec: parsing a successfully built packet
recovers every constructor field and the payload; moreover the bytes after
the fixed 40-byte headers are the padded options followed by the payload. -/
theorem tcp_parse_build (p : TCPPacket) (ident : Nat) (ob : List Nat)
    (hb : p.Buildable ident ob) :
    ∃ bs, p.buildFixed ident = some bs ∧
      tcpParse bs = .ok {
        srcIp := p.srcIp, dstIp := p.dstIp,
        srcPort := p.srcPort, dstPort := p.dstPort,
        seqNum := p.seqNum, ackNum := p.ackNum,
        flags := p.flags, window := p.window, data := p.data,
        hasSyn := p.flags &&& 2 != 0, hasAck := p.flags &&& 16 != 0,
        hasFin := p.flags &&& 1 != 0, hasRst := p.flags &&& 4 != 0,
        hasPsh := p.flags &&& 8 != 0 } ∧
      bs.drop 40 = paddedOptions ob ++ p.data := by
  obtain ⟨hob, hsp, hdp, hsq, hak, hoff, hfl, hwin, hident, htotal⟩ := hb
  obtain ⟨c0, c1, hth⟩ := buildTcpHeaderFixed_shape p ob hob hsp hdp hsq hak hoff
    hfl hwin (by omega)
  have hthlen : (fixedTcpBytes p (dataOffsetFor ob.length <<< 4) c0 c1 ++
      paddedOptions ob).length = dataOffsetFor ob.length * 4 := by
    have := dataOffsetFor_mul_ge ob.length
    simp only [List.length_append, fixedTcpBytes_length, paddedOptions_length]
    omega
  have htl : 20 + ((fixedTcpBytes p (dataOffsetFor ob.length <<< 4) c0 c1 ++
      paddedOptions ob).length + p.data.length) < 65536 := by
    rw [hthlen]; omega
  obtain ⟨t0, t1, i0, i1, d0, d1, hip⟩ := buildIpHeader_shape p
    ((fixedTcpBytes p (dataOffsetFor ob.length <<< 4) c0 c1 ++
      paddedOptions ob).length + p.data.length) ident htl hident
  have hbuild : p.buildFixed ident =
      some (ipHeaderBytes p.srcIp p.dstIp t0 t1 i0 i1 d0 d1 ++
        (fixedTcpBytes p (dataOffsetFor ob.length <<< 4) c0 c1 ++
          paddedOptions ob) ++ p.data) := by
    unfold TCPPacket.buildFixed
    rw [hth]
    simp only [Option.bind_eq_bind, Option.some_bind]
    rw [hip]
    simp only [Option.some_bind]
  refine ⟨_, hbuild, ?_, ?_⟩
  · have hparse : tcpParse (ipHeaderBytes p.srcIp p.dstIp t0 t1 i0 i1 d0 d1 ++
        (fixedTcpBytes p (dataOffsetFor ob.length <<< 4) c0 c1 ++
          paddedOptions ob) ++ p.data) = .ok {
        srcIp := ⟨p.srcIp.o1, p.srcIp.o2, p.srcIp.o3, p.srcIp.o4⟩,
        dstIp := ⟨p.dstIp.o1, p.dstIp.o2, p.dstIp.o3, p.dstIp.o4⟩,
        srcPort := p.srcPort / 256 * 256 + p.srcPort % 256,
        dstPort := p.dstPort / 256 * 256 + p.dstPort % 256,
        seqNum := p.seqNum / 16777216 * 16777216 + p.seqNum / 65536 % 256 * 65536 +
          p.seqNum / 256 % 256 * 256 + p.seqNum % 256,
        ackNum := p.ackNum / 16777216 * 16777216 + p.ackNum / 65536 % 256 * 65536 +
          p.ackNum / 256 % 256 * 256 + p.ackNum % 256,
        flags := p.flags,
        window := p.window / 256 * 256 + p.window % 256,
        data := (ipHeaderBytes p.srcIp p.dstIp t0 t1 i0 i1 d0 d1 ++
          (fixedTcpBytes p (dataOffsetFor ob.length <<< 4) c0 c1 ++
            paddedOptions ob) ++ p.data).drop
          (20 + (dataOffsetFor ob.length <<< 4 >>> 4) * 4),
        hasSyn := p.flags &&& 2 != 0, hasAck := p.flags &&& 16 != 0,
        hasFin := p.flags &&& 1 != 0, hasRst := p.flags &&& 4 != 0,
        hasPsh := p.flags &&& 8 != 0 } := by
      simp only [ipHeaderBytes, fixedTcpBytes, IPv4.bytes, List.cons_append,
        List.nil_append, List.append_assoc]
      rfl
    rw [hparse]
    have hdrop : (ipHeaderBytes p.srcIp p.dstIp t0 t1 i0 i1 d0 d1 ++
        (fixedTcpBytes p (dataOffsetFor ob.length <<< 4) c0 c1 ++
          paddedOptions ob) ++ p.data).drop
        (20 + (dataOffsetFor ob.length <<< 4 >>> 4) * 4) = p.data := by
      rw [shiftLeft_shiftRight_four]
      rw [← List.append_assoc]
      refine List.drop_left' ?_
      simp only [List.length_append, ipHeaderBytes_length, fixedTcpBytes_length,
        paddedOptions_length]
      have := dataOffsetFor_mul_ge ob.length
      omega
    rw [hdrop]
    simp only [Except.ok.injEq, ParsedTCP.mk.injEq, true_and, and_true]
    omega
  · have hregroup : ipHeaderBytes p.srcIp p.dstIp t0 t1 i0 i1 d0 d1 ++
        (fixedTcpBytes p (dataOffsetFor ob.length <<< 4) c0 c1 ++
          paddedOptions ob) ++ p.data =
        (ipHeaderBytes p.srcIp p.dstIp t0 t1 i0 i1 d0 d1 ++
          fixedTcpBytes p (dataOffsetFor ob.length <<< 4) c0 c1) ++
        (paddedOptions ob ++ p.data) := by
      simp [List.append_assoc]
    rw [hregroup]
    exact List.drop_left' (by simp [ipHeaderBytes_length, fixedTcpBytes_length])

/-! ## BGP message codec (`bgp_routing.py`, class `BGPMessage`) -/

/-- A BGP message: type byte and body. -/
structure BGPMessage where
  msgType : Nat
  data : List Nat
deriving DecidableEq, Repr

/-- The 16-byte all-ones marker `b'\xff' * 16`. -/
def bgpMarker : List Nat :=
  [255, 255, 255, 255, 255, 255, 255, 255,
   255, 255, 255, 255, 255, 255, 255, 255]

/-- `BGPMessage.build`: marker, 16-bit length `19 + len(data)`, type byte,
body. -/
def BGPMessage.build (m : BGPMessage) : Option (List Nat) := do
  let lenBytes ← pack16 (19 + m.data.length)
  let typeByte ← pack8 m.msgType
  some (bgpMarker ++ lenBytes ++ typeByte ++ m.data)

/-- `BGPMessage.parse`: returns `None` (a value, not an exception) on a
buffer shorter than 19 bytes (the fallback match arm), a marker mismatch, or
a length field exceeding the available data; otherwise the type byte and the
body slice `data[19:length]`. -/
def BGPMessage.parse (bs : List Nat) : Option BGPMessage :=
  match bs with
  | m0 :: m1 :: m2 :: m3 :: m4 :: m5 :: m6 :: m7 ::
    m8 :: m9 :: m10 :: m11 :: m12 :: m13 :: m14 :: m15 ::
    l0 :: l1 :: ty :: _rest =>
    if [m0, m1, m2, m3, m4, m5, m6, m7,
        m8, m9, m10, m11, m12, m13, m14, m15] ≠ bgpMarker then none
    else if bs.length < l0 * 256 + l1 then none
    else some ⟨ty, (bs.take (l0 * 256 + l1)).drop 19⟩
  | _ => none

/-- Round trip of the BGP message codec: parsing a successfully built
message recovers the type byte and the body. -/
theorem bgp_parse_build (m : BGPMessage)
    (hlen : 19 + m.data.length < 65536) (hty : m.msgType < 256) :
    ∃ bs, m.build = some bs ∧ BGPMessage.parse bs = some ⟨m.msgType, m.data⟩ := by
  have hbuild : m.build = some (bgpMarker ++
      [(19 + m.data.length) / 256, (19 + m.data.length) % 256] ++
      [m.msgType] ++ m.data) := by
    unfold BGPMessage.build
    rw [pack16_of_lt hlen, pack8_of_lt hty]
    simp only [Option.bind_eq_bind, Option.some_bind]
  refine ⟨_, hbuild, ?_⟩
  have hcons : bgpMarker ++
      [(19 + m.data.length) / 256, (19 + m.data.length) % 256] ++
      [m.msgType] ++ m.data =
      255 :: 255 :: 255 :: 255 :: 255 :: 255 :: 255 :: 255 ::
      255 :: 255 :: 255 :: 255 :: 255 :: 255 :: 255 :: 255 ::
      (19 + m.data.length) / 256 :: (19 + m.data.length) % 256 ::
      m.msgType :: m.data := by
    simp [bgpMarker]
  rw [hcons]
  simp only [BGPMessage.parse]
  rw [if_neg (by simp [bgpMarker])]
  have hlength : (255 :: 255 :: 255 :: 255 :: 255 :: 255 :: 255 :: 255 ::
      255 :: 255 :: 255 :: 255 :: 255 :: 255 :: 255 :: 255 ::
      (19 + m.data.length) / 256 :: (19 + m.data.length) % 256 ::
      m.msgType :: m.data).length = 19 + m.data.length := by
    simp only [List.length_cons]
    omega
  have hfield : (19 + m.data.length) / 256 * 256 + (19 + m.data.length) % 256 =
      19 + m.data.length := by omega
  rw [hfield, if_neg (by rw [hlength]; omega)]
  have htake : (255 :: 255 :: 255 :: 255 :: 255 :: 255 :: 255 :: 255 ::
      255 :: 255 :: 255 :: 255 :: 255 :: 255 :: 255 :: 255 ::
      (19 + m.data.length) / 256 :: (19 + m.data.length) % 256 ::
      m.msgType :: m.data).take (19 + m.data.length) =
      255 :: 255 :: 255 :: 255 :: 255 :: 255 :: 255 :: 255 ::
      255 :: 255 :: 255 :: 255 :: 255 :: 255 :: 255 :: 255 ::
      (19 + m.data.length) / 256 :: (19 + m.data.length) % 256 ::
      m.msgType :: m.data := by
    exact List.take_of_length_le (le_of_eq hlength)
  rw [htake]
  have hdrop : (255 :: 255 :: 255 :: 255 :: 255 :: 255 :: 255 :: 255 ::
      255 :: 255 :: 255 :: 255 :: 255 :: 255 :: 255 :: 255 ::
      (19 + m.data.length) / 256 :: (19 + m.data.length) % 256 ::
      m.msgType :: m.data).drop 19 = m.data := by
    rfl
  rw [hdrop]

/-- The TCP half of the codec round trip: building succeeds and parsing the
built bytes recovers every field and the payload. -/
def TcpRoundtripOk (p : TCPPacket) (ident : Nat) : Prop :=
  ∃ bs, p.buildFixed ident = some bs ∧
    tcpParse bs = .ok {
      srcIp := p.srcIp, dstIp := p.dstIp,
      srcPort := p.srcPort, dstPort := p.dstPort,
      seqNum := p.seqNum, ackNum := p.ackNum,
      flags := p.flags, window := p.window, data := p.data,
      hasSyn := p.flags &&& 2 != 0, hasAck := p.flags &&& 16 != 0,
      hasFin := p.flags &&& 1 != 0, hasRst := p.flags &&& 4 != 0,
      hasPsh := p.flags &&& 8 != 0 }

/-- The BGP half of the codec round trip. -/
def BgpRoundtripOk (m : BGPMessage) : Prop :=
  ∃ ws, m.build = some ws ∧ BGPMessage.parse ws = some ⟨m.msgType, m.data⟩

/-- C1.  Codec round trip.  As written, `TCPPacket.build` raises
`struct.error` on *every* input — the header rebuild passes eight values to
the seven-code format `'!HHIIBBH'` — so no TCP packet is ever built or
round-tripped by the source as it stands (first conjunct; this contradicts
the module's own `__main__` self-test, which builds packets and expects
success).  With the rebuild's evident intent restored — the byte layout the
first-pass pack, the separately packed urgent pointer and `TCPPacket.parse`
all agree on — parsing a built packet recovers every constructor field and
the payload for every buildable record (second conjunct); and
`BGPMessage.parse (BGPMessage.build m)` recovers the message type and body
whenever the body fits the 16-bit length field (third conjunct). -/
theorem codec_roundtrip (p : TCPPacket) (ident : Nat) (ob : List Nat)
    (m : BGPMessage) (hp : p.Buildable ident ob)
    (hmlen : 19 + m.data.length < 65536) (hmty : m.msgType < 256) :
    p.build ident = none ∧ TcpRoundtripOk p ident ∧ BgpRoundtripOk m := by
  refine ⟨build_eq_none p ident, ?_, bgp_parse_build m hmlen hmty⟩
  obtain ⟨bs, h1, h2, _⟩ := tcp_parse_build p ident ob hp
  exact ⟨bs, h1, h2⟩

/-- A concrete buildable TCP packet: PSH+ACK with MSS, window-scale and
SACK-permitted options and a two-byte payload. -/
def tcpExample : TCPPacket :=
  { srcIp := ⟨192, 168, 1, 1⟩, dstIp := ⟨192, 168, 1, 2⟩,
    srcPort := 12345, dstPort := 80, seqNum := 1000, ackNum := 2000,
    flags := 24, window := 65535, data := [104, 105],
    options := [(2, [5, 180]), (3, [7]), (4, [])] }

/-- A concrete BGP UPDATE message with a three-byte body. -/
def bgpExample : BGPMessage := ⟨2, [1, 2, 3]⟩

theorem codec_roundtrip_witness :
    tcpExample.Buildable 7 [2, 4, 5, 180, 3, 3, 7, 4, 2] ∧
    19 + bgpExample.data.length < 65536 ∧ bgpExample.msgType < 256 ∧
    (tcpExample.build 7 = none ∧
      TcpRoundtripOk tcpExample 7 ∧ BgpRoundtripOk bgpExample) :=
  ⟨by decide, by decide, by decide,
    codec_roundtrip tcpExample 7 [2, 4, 5, 180, 3, 3, 7, 4, 2] bgpExample
      (by decide) (by decide) (by decide)⟩

/-! ## TCP connection machine (`tcp_connection.py`)

The connection state is the mutable attribute set of `TCPConnection`.
Mutating methods become functions `Conn → Conn`; methods that also emit
packets through `send_callback` return the list of emitted byte strings
alongside the new state; methods whose packet builders can raise are
`Option`-valued.  The `unacked_packets` dictionary (Python dicts preserve
insertion order and have unique keys) is an insertion-ordered association
list. -/

inductive TCPState where
  | CLOSED | LISTEN | SYN_SENT | SYN_RECEIVED | ESTABLISHED
  | FIN_WAIT_1 | FIN_WAIT_2 | CLOSE_WAIT | CLOSING | LAST_ACK | TIME_WAIT
deriving DecidableEq, Repr

/-- Python dict assignment `d[k] = v`: replace in place if present, else
append. -/
def upsert {α : Type} : List (Nat × α) → Nat → α → List (Nat × α)
  | [], k, v => [(k, v)]
  | (k', v') :: t, k, v =>
    if k' = k then (k, v) :: t else (k', v') :: upsert t k v

/-- Python `del d[k]` on a unique-keyed dict (no-op when absent, matching a
guarded `if k in d: del d[k]`). -/
def eraseKey {α : Type} : List (Nat × α) → Nat → List (Nat × α)
  | [], _ => []
  | (k', v') :: t, k => if k' = k then t else (k', v') :: eraseKey t k

/-- The mutable state of one `TCPConnection`. -/
structure Conn where
  srcIp : IPv4
  dstIp : IPv4
  srcPort : Nat
  dstPort : Nat
  state : TCPState
  seqNum : Nat
  ackNum : Nat
  initialSeq : Nat
  sendWindow : Nat
  recvWindow : Nat
  mss : Nat
  recvBuffer : List (List Nat)
  outOfOrder : List (Nat × List Nat)
  unacked : List (Nat × List Nat × ℚ × Nat)
  rto : ℚ
  srtt : Option ℚ
  rttvar : Option ℚ
  lastActivity : ℚ
  timeWaitStart : Option ℚ
  bytesSent : Nat
  bytesReceived : Nat
  packetsSent : Nat
  packetsReceived : Nat
  retransmits : Nat
deriving DecidableEq, Repr

/-- `build_syn_packet`: a SYN carrying the MSS, window-scale shift 7 and
SACK-permitted options.  The connection layer is modelled over the
corrected packet builder `TCPPacket.buildFixed`: as written the underlying
`TCPPacket.build` raises on every call (`build_eq_none`), so `connect`,
and every handler that sends, would raise before emitting anything. -/
def buildSynPacket (srcIp dstIp : IPv4) (srcPort dstPort seqNum mss ident : Nat) :
    Option (List Nat) := do
  let mssBytes ← pack16 mss
  TCPPacket.buildFixed
    { srcIp := srcIp, dstIp := dstIp, srcPort := srcPort, dstPort := dstPort,
      seqNum := seqNum, ackNum := 0, flags := 2, window := 65535,
      data := [], options := [(2, mssBytes), (3, [7]), (4, [])] } ident

/-- `build_ack_packet`: a bare ACK. -/
def buildAckPacket (srcIp dstIp : IPv4) (srcPort dstPort seqNum ackNum ident : Nat) :
    Option (List Nat) :=
  TCPPacket.buildFixed
    { srcIp := srcIp, dstIp := dstIp, srcPort := srcPort, dstPort := dstPort,
      seqNum := seqNum, ackNum := ackNum, flags := 16, window := 65535,
      data := [], options := [] } ident

/-- `TCPConnection._send_packet`: counter updates at each emission. -/
def sendPacket (pkt : List Nat) (c : Conn) : Conn :=
  { c with packetsSent := c.packetsSent + 1,
           bytesSent := c.bytesSent + pkt.length }

/-- `TCPConnection.connect`, the locked section: on a non-CLOSED slot the
method returns `False` without emitting; otherwise it emits a SYN built from
the current sequence number and MSS, moves to SYN_SENT, advances `seq_num`
and records the SYN under `initial_seq` in the unacked table.  (The
subsequent wait-for-establishment polling loop involves real time and
concurrency and is not part of the state transition.) -/
def Conn.connect (c : Conn) (now : ℚ) (ident : Nat) :
    Option (Conn × List (List Nat)) :=
  if c.state ≠ TCPState.CLOSED then some (c, [])
  else do
    let syn ← buildSynPacket c.srcIp c.dstIp c.srcPort c.dstPort
      c.seqNum c.mss ident
    let c1 := sendPacket syn c
    some ({ c1 with
      state := TCPState.SYN_SENT
      seqNum := c1.seqNum + 1
      unacked := upsert c1.unacked c.initialSeq (syn, now, 0) }, [syn])

/-- `TCPConnection._update_rto`: the Jacobson/Karels estimator with
`alpha = 0.125`, `beta = 0.25`, seeded from the first sample, and the final
clamp `max(1.0, min(60.0, rto))`.  (The source keeps `srtt`/`rttvar` `None`
together; the fallback arm is the first-sample branch.) -/
def Conn.updateRto (rtt : ℚ) (c : Conn) : Conn :=
  match c.srtt, c.rttvar with
  | some s, some v =>
    let v' := (1 - 1/4) * v + (1/4) * |s - rtt|
    let s' := (1 - 1/8) * s + (1/8) * rtt
    let r' := s' + 4 * v'
    { c with srtt := some s', rttvar := some v', rto := max 1 (min 60 r') }
  | _, _ =>
    let s' := rtt
    let v' := rtt / 2
    let r' := s' + 4 * v'
    { c with srtt := some s', rttvar := some v', rto := max 1 (min 60 r') }

theorem updateRto_state (rtt : ℚ) (c : Conn) :
    (c.updateRto rtt).state = c.state := by
  unfold Conn.updateRto; split <;> rfl

theorem updateRto_seqNum (rtt : ℚ) (c : Conn) :
    (c.updateRto rtt).seqNum = c.seqNum := by
  unfold Conn.updateRto; split <;> rfl

theorem updateRto_ackNum (rtt : ℚ) (c : Conn) :
    (c.updateRto rtt).ackNum = c.ackNum := by
  unfold Conn.updateRto; split <;> rfl

theorem updateRto_initialSeq (rtt : ℚ) (c : Conn) :
    (c.updateRto rtt).initialSeq = c.initialSeq := by
  unfold Conn.updateRto; split <;> rfl

theorem updateRto_srcIp (rtt : ℚ) (c : Conn) :
    (c.updateRto rtt).srcIp = c.srcIp := by
  unfold Conn.updateRto; split <;> rfl

theorem updateRto_dstIp (rtt : ℚ) (c : Conn) :
    (c.updateRto rtt).dstIp = c.dstIp := by
  unfold Conn.updateRto; split <;> rfl

theorem updateRto_srcPort (rtt : ℚ) (c : Conn) :
    (c.updateRto rtt).srcPort = c.srcPort := by
  unfold Conn.updateRto; split <;> rfl

theorem updateRto_dstPort (rtt : ℚ) (c : Conn) :
    (c.updateRto rtt).dstPort = c.dstPort := by
  unfold Conn.updateRto; split <;> rfl

theorem updateRto_unacked (rtt : ℚ) (c : Conn) :
    (c.updateRto rtt).unacked = c.unacked := by
  unfold Conn.updateRto; split <;> rfl

theorem updateRto_recvBuffer (rtt : ℚ) (c : Conn) :
    (c.updateRto rtt).recvBuffer = c.recvBuffer := by
  unfold Conn.updateRto; split <;> rfl

/-- `TCPConnection._handle_syn_sent`: on SYN+ACK, set `ack_num`, drop the
SYN from the unacked table, emit an ACK and become ESTABLISHED. -/
def handleSynSent (pd : ParsedTCP) (ident : Nat) (c : Conn) :
    Option (Conn × List (List Nat)) :=
  if pd.hasSyn && pd.hasAck then do
    let c1 := { c with ackNum := pd.seqNum + 1 }
    let c2 := { c1 with unacked := eraseKey c1.unacked c1.initialSeq }
    let ack ← buildAckPacket c2.srcIp c2.dstIp c2.srcPort c2.dstPort
      c2.seqNum c2.ackNum ident
    let c3 := sendPacket ack c2
    some ({ c3 with state := TCPState.ESTABLISHED }, [ack])
  else some (c, [])

/-- `TCPConnection._handle_established`: cumulative-ACK removal of unacked
segments below `ack_num`, in-order data appended to the receive buffer and
ACKed, out-of-order data stored by start sequence, and FIN handling into
CLOSE_WAIT. -/
def handleEstablished (pd : ParsedTCP) (ident : Nat) (c : Conn) :
    Option (Conn × List (List Nat)) := do
  let c := if pd.hasAck then
      { c with unacked := c.unacked.filter (fun kv => !decide (kv.1 < pd.ackNum)) }
    else c
  let step ←
    if pd.data ≠ [] then
      if pd.seqNum = c.ackNum then do
        let c1 := { c with
          recvBuffer := c.recvBuffer ++ [pd.data]
          ackNum := c.ackNum + pd.data.length
          bytesReceived := c.bytesReceived + pd.data.length }
        let ack ← buildAckPacket c1.srcIp c1.dstIp c1.srcPort c1.dstPort
          c1.seqNum c1.ackNum ident
        some (sendPacket ack c1, [ack])
      else
        some ({ c with outOfOrder := upsert c.outOfOrder pd.seqNum pd.data },
          ([] : List (List Nat)))
    else some (c, ([] : List (List Nat)))
  let c := step.1
  if pd.hasFin then do
    let c1 := { c with ackNum := pd.seqNum + 1 }
    let ack ← buildAckPacket c1.srcIp c1.dstIp c1.srcPort c1.dstPort
      c1.seqNum c1.ackNum ident
    let c2 := sendPacket ack c1
    some ({ c2 with state := TCPState.CLOSE_WAIT }, step.2 ++ [ack])
  else some (c, step.2)

/-- `TCPConnection._handle_fin_wait_1`: an ACK moves to FIN_WAIT_2; a FIN is
ACKed and starts TIME_WAIT. -/
def handleFinWait1 (pd : ParsedTCP) (now : ℚ) (ident : Nat) (c : Conn) :
    Option (Conn × List (List Nat)) :=
  let c := if pd.hasAck then { c with state := TCPState.FIN_WAIT_2 } else c
  if pd.hasFin then do
    let c1 := { c with ackNum := pd.seqNum + 1 }
    let ack ← buildAckPacket c1.srcIp c1.dstIp c1.srcPort c1.dstPort
      c1.seqNum c1.ackNum ident
    let c2 := sendPacket ack c1
    some ({ c2 with state := TCPState.TIME_WAIT, timeWaitStart := some now }, [ack])
  else some (c, [])

/-- `TCPConnection._handle_fin_wait_2`: a FIN is ACKed and starts TIME_WAIT. -/
def handleFinWait2 (pd : ParsedTCP) (now : ℚ) (ident : Nat) (c : Conn) :
    Option (Conn × List (List Nat)) :=
  if pd.hasFin then do
    let c1 := { c with ackNum := pd.seqNum + 1 }
    let ack ← buildAckPacket c1.srcIp c1.dstIp c1.srcPort c1.dstPort
      c1.seqNum c1.ackNum ident
    let c2 := sendPacket ack c1
    some ({ c2 with state := TCPState.TIME_WAIT, timeWaitStart := some now }, [ack])
  else some (c, [])

/-- `TCPConnection._handle_last_ack`: an ACK closes the slot. -/
def handleLastAck (pd : ParsedTCP) (c : Conn) :
    Option (Conn × List (List Nat)) :=
  if pd.hasAck then some ({ c with state := TCPState.CLOSED }, [])
  else some (c, [])

/-- `TCPConnection.handle_packet`: activity/counter update, the RTT-sample
update when the ACK number is a key of the unacked table, then the state
dispatch (states with no branch in the source fall through unchanged). -/
def Conn.handlePacket (pd : ParsedTCP) (now : ℚ) (ident : Nat) (c : Conn) :
    Option (Conn × List (List Nat)) :=
  let c := { c with
    lastActivity := now
    packetsReceived := c.packetsReceived + 1 }
  let c := if pd.hasAck then
      match c.unacked.lookup pd.ackNum with
      | some (_, sentTime, _) => c.updateRto (now - sentTime)
      | none => c
    else c
  if c.state = TCPState.SYN_SENT then handleSynSent pd ident c
  else if c.state = TCPState.ESTABLISHED then handleEstablished pd ident c
  else if c.state = TCPState.FIN_WAIT_1 then handleFinWait1 pd now ident c
  else if c.state = TCPState.FIN_WAIT_2 then handleFinWait2 pd now ident c
  else if c.state = TCPState.CLOSE_WAIT then some (c, [])
  else if c.state = TCPState.LAST_ACK then handleLastAck pd c
  else some (c, [])

/-- `TCPConnection.receive`: empty buffer returns `b''`; otherwise the whole
buffer is joined, cleared, and the join truncated to `max_bytes` returned. -/
def Conn.receive (maxBytes : Nat) (c : Conn) : List Nat × Conn :=
  if c.recvBuffer.isEmpty then ([], c)
  else ((c.recvBuffer.flatten).take maxBytes, { c with recvBuffer := [] })

/-- The loop body of `TCPConnection.check_retransmit`, folding over the
snapshot `list(self.unacked_packets.items())` while mutating the live
state: an expired segment with fewer than 5 retries is re-sent, its table
entry updated to `(packet, now, retries + 1)`, the retransmit counter
incremented and the RTO doubled; an expired segment at 5 retries closes the
connection and is dropped from the table. -/
def checkRetransmitGo (now : ℚ) :
    List (Nat × List Nat × ℚ × Nat) → Conn → List (List Nat) →
      Conn × List (List Nat)
  | [], c, acc => (c, acc)
  | (sn, pkt, sentTime, retries) :: rest, c, acc =>
    if now - sentTime > c.rto then
      if retries < 5 then
        let c1 := sendPacket pkt c
        let c2 := { c1 with
          unacked := upsert c1.unacked sn (pkt, now, retries + 1)
          retransmits := c1.retransmits + 1
          rto := c1.rto * 2 }
        checkRetransmitGo now rest c2 (acc ++ [pkt])
      else
        checkRetransmitGo now rest
          { c with
            state := TCPState.CLOSED
            unacked := eraseKey c.unacked sn } acc
    else checkRetransmitGo now rest c acc

/-- `TCPConnection.check_retransmit`. -/
def Conn.checkRetransmit (now : ℚ) (c : Conn) : Conn × List (List Nat) :=
  checkRetransmitGo now c.unacked c []

/-- The SYN option list encodes to MSS(4-byte), window-scale shift 7
(3-byte), SACK-permitted (2-byte). -/
theorem buildOptions_syn (mss : Nat) (h : mss < 65536) :
    buildOptions [(2, [mss / 256, mss % 256]), (3, [7]), (4, [])] =
      some [2, 4, mss / 256, mss % 256, 3, 3, 7, 4, 2] := by
  have h1 : mss / 256 * 256 + mss % 256 = mss := by omega
  have h7 : pack8 7 = some [7] := pack8_of_lt (by norm_num)
  simp only [buildOptions, h1, pack16_of_lt h, h7,
    Option.bind_eq_bind, Option.some_bind]
  norm_num

/-- In SYN_SENT, `handle_packet` reduces to `_handle_syn_sent` applied to
the connection after the activity/counter/RTT-estimator preamble, which
leaves the fields used by the handshake untouched. -/
theorem handlePacket_syn_sent_step (pd : ParsedTCP) (now2 : ℚ) (ident2 : Nat)
    (c : Conn) (hstate : c.state = TCPState.SYN_SENT) :
    ∃ cb, Conn.handlePacket pd now2 ident2 c = handleSynSent pd ident2 cb ∧
      cb.srcIp = c.srcIp ∧ cb.dstIp = c.dstIp ∧
      cb.srcPort = c.srcPort ∧ cb.dstPort = c.dstPort ∧
      cb.seqNum = c.seqNum ∧ cb.initialSeq = c.initialSeq := by
  unfold Conn.handlePacket
  by_cases hA : pd.hasAck = true
  · rw [hA]
    simp only [eq_self_iff_true, if_true]
    cases hlk : List.lookup pd.ackNum c.unacked with
    | none =>
      dsimp only
      rw [if_pos (by simpa using hstate)]
      exact ⟨_, rfl, rfl, rfl, rfl, rfl, rfl, rfl⟩
    | some v =>
      obtain ⟨pkt, t, r⟩ := v
      dsimp only
      rw [if_pos (by rw [updateRto_state]; simpa using hstate)]
      exact ⟨_, rfl, updateRto_srcIp _ _, updateRto_dstIp _ _,
        updateRto_srcPort _ _, updateRto_dstPort _ _,
        updateRto_seqNum _ _, updateRto_initialSeq _ _⟩
  · dsimp only
    rw [if_neg hA]
    rw [if_pos (by simpa using hstate)]
    exact ⟨_, rfl, rfl, rfl, rfl, rfl, rfl, rfl⟩

/-- `_handle_syn_sent` on a SYN+ACK: sets `ack_num`, emits the ACK the
builder produces, and becomes ESTABLISHED. -/
theorem handleSynSent_establishes (pd : ParsedTCP) (ident2 : Nat) (cb : Conn)
    (hsyn : pd.hasSyn = true) (hack : pd.hasAck = true) (ack : List Nat)
    (hbuildack : buildAckPacket cb.srcIp cb.dstIp cb.srcPort cb.dstPort
      cb.seqNum (pd.seqNum + 1) ident2 = some ack) :
    ∃ c2, handleSynSent pd ident2 cb = some (c2, [ack]) ∧
      c2.state = TCPState.ESTABLISHED := by
  unfold handleSynSent
  rw [hsyn, hack]
  simp only [Bool.and_self, eq_self_iff_true, if_true]
  rw [hbuildack]
  simp only [Option.bind_eq_bind, Option.some_bind]
  exact ⟨_, rfl, rfl⟩

/-- What the claim asserts of an active open: `connect` emits exactly one
packet, a SYN with the initial sequence number carrying the MSS,
window-scale-7 and SACK-permitted options, and moves the slot to SYN_SENT;
then a SYN+ACK with sequence `Y` makes the slot emit exactly one packet, an
ACK with sequence `X + 1` and acknowledgment `Y + 1`, and become
ESTABLISHED. -/
def ActiveOpenSpec (c : Conn) (X Y : Nat) (now now2 : ℚ)
    (ident ident2 : Nat) (pd : ParsedTCP) : Prop :=
  ∃ c1 syn, c.connect now ident = some (c1, [syn]) ∧
    c1.state = TCPState.SYN_SENT ∧
    c1.seqNum = X + 1 ∧
    (∃ pds, tcpParse syn = .ok pds ∧ pds.seqNum = X ∧
      pds.hasSyn = true ∧ pds.hasAck = false) ∧
    (syn.drop 40).take 9 = [2, 4, c.mss / 256, c.mss % 256, 3, 3, 7, 4, 2] ∧
    ∃ c2 ack, c1.handlePacket pd now2 ident2 = some (c2, [ack]) ∧
      c2.state = TCPState.ESTABLISHED ∧
      ∃ pda, tcpParse ack = .ok pda ∧ pda.seqNum = X + 1 ∧
        pda.ackNum = Y + 1 ∧ pda.hasAck = true

/-- C2.  TCP active open: a CLOSED connection with initial sequence number
`X` emits on `connect()` a SYN with `seq = X` carrying the MSS, window-scale
shift-7 and SACK-permitted options and moves to SYN_SENT; on receipt of a
SYN+ACK with `seq = Y` it emits `ACK(seq = X + 1, ack = Y + 1)` and moves to
ESTABLISHED.  (The bounds keep every `struct.pack` call of the two packet
builders in range.)  This holds over the corrected packet builder
`buildFixed`; in the source as written, `connect()` raises `struct.error`
out of `build_syn_packet` before emitting anything, because
`TCPPacket._build_tcp_header`'s rebuild is malformed — see `build_eq_none`
and claim C1. -/
theorem tcp_active_open (c : Conn) (X Y : Nat) (now now2 : ℚ)
    (ident ident2 : Nat) (pd : ParsedTCP)
    (hst : c.state = TCPState.CLOSED)
    (hseq : c.seqNum = X) (hinit : c.initialSeq = X)
    (hX : X + 1 < 4294967296) (hY : Y + 1 < 4294967296)
    (hmss : c.mss < 65536)
    (hsp : c.srcPort < 65536) (hdp : c.dstPort < 65536)
    (hid : ident < 65536) (hid2 : ident2 < 65536)
    (hsyn : pd.hasSyn = true) (hack : pd.hasAck = true)
    (hseqY : pd.seqNum = Y) :
    ActiveOpenSpec c X Y now now2 ident ident2 pd := by
  subst hseq hseqY
  -- the SYN packet record produced by build_syn_packet
  have hP : TCPPacket.Buildable
      { srcIp := c.srcIp, dstIp := c.dstIp, srcPort := c.srcPort,
        dstPort := c.dstPort, seqNum := c.seqNum, ackNum := 0, flags := 2,
        window := 65535, data := [],
        options := [(2, [c.mss / 256, c.mss % 256]), (3, [7]), (4, [])] }
      ident [2, 4, c.mss / 256, c.mss % 256, 3, 3, 7, 4, 2] := by
    refine ⟨buildOptions_syn c.mss hmss, hsp, hdp,
      (show c.seqNum < 4294967296 by omega), ?_, ?_, ?_, ?_, hid, ?_⟩ <;>
      simp only [List.length_cons, List.length_nil, dataOffsetFor] <;> decide
  obtain ⟨syn, hsbuild, hsparse, hsdrop⟩ := tcp_parse_build _ ident _ hP
  have hconn : c.connect now ident = some ({ sendPacket syn c with
      state := TCPState.SYN_SENT, seqNum := (sendPacket syn c).seqNum + 1,
      unacked := upsert (sendPacket syn c).unacked c.initialSeq
        (syn, now, 0) }, [syn]) := by
    unfold Conn.connect
    rw [if_neg (by rw [hst]; simp)]
    unfold buildSynPacket
    rw [pack16_of_lt hmss]
    simp only [Option.bind_eq_bind, Option.some_bind]
    rw [hsbuild]
    simp only [Option.some_bind]
  refine ⟨_, syn, hconn, rfl, rfl,
    ⟨_, hsparse, rfl, by simp, by simp; decide⟩, ?_, ?_⟩
  · rw [hsdrop]
    rfl
  · obtain ⟨cb, hstep, hb1, hb2, hb3, hb4, hb5, hb6⟩ :=
      handlePacket_syn_sent_step pd now2 ident2
        ({ sendPacket syn c with
          state := TCPState.SYN_SENT
          seqNum := (sendPacket syn c).seqNum + 1
          unacked := upsert (sendPacket syn c).unacked c.initialSeq
            (syn, now, 0) }) rfl
    have hQ : TCPPacket.Buildable
        { srcIp := cb.srcIp, dstIp := cb.dstIp, srcPort := cb.srcPort,
          dstPort := cb.dstPort, seqNum := cb.seqNum, ackNum := pd.seqNum + 1,
          flags := 16, window := 65535, data := [], options := [] }
        ident2 [] := by
      refine ⟨rfl, ?_, ?_, ?_, ?_, ?_, ?_, ?_, hid2, ?_⟩
      · show cb.srcPort < 65536
        rw [hb3]; exact hsp
      · show cb.dstPort < 65536
        rw [hb4]; exact hdp
      · show cb.seqNum < 4294967296
        rw [hb5]; exact hX
      · exact hY
      · simp only [List.length_nil, dataOffsetFor]
        decide
      · show (16 : Nat) < 256
        decide
      · show (65535 : Nat) < 65536
        decide
      · simp only [List.length_nil, dataOffsetFor]
        decide
    obtain ⟨ack, habuild, haparse, _⟩ := tcp_parse_build _ ident2 [] hQ
    obtain ⟨c2, hss, hc2state⟩ :=
      handleSynSent_establishes pd ident2 cb hsyn hack ack habuild
    refine ⟨c2, ack, ?_, hc2state, ?_⟩
    · rw [hstep]
      exact hss
    · refine ⟨_, haparse, ?_, rfl, ?_⟩
      · show cb.seqNum = c.seqNum + 1
        rw [hb5]
        rfl
      · simp
        try decide

/-- A fresh CLOSED connection slot with initial sequence number 1000. -/
def connExample : Conn :=
  { srcIp := ⟨192, 168, 1, 1⟩, dstIp := ⟨192, 168, 1, 2⟩,
    srcPort := 12345, dstPort := 80, state := TCPState.CLOSED,
    seqNum := 1000, ackNum := 0, initialSeq := 1000,
    sendWindow := 65535, recvWindow := 65535, mss := 1460,
    recvBuffer := [], outOfOrder := [], unacked := [],
    rto := 1, srtt := none, rttvar := none, lastActivity := 0,
    timeWaitStart := none, bytesSent := 0, bytesReceived := 0,
    packetsSent := 0, packetsReceived := 0, retransmits := 0 }

/-- The parsed form of a peer SYN+ACK with sequence 2000 and ack 1001. -/
def synAckExample : ParsedTCP :=
  { srcIp := ⟨192, 168, 1, 2⟩, dstIp := ⟨192, 168, 1, 1⟩,
    srcPort := 80, dstPort := 12345, seqNum := 2000, ackNum := 1001,
    flags := 18, window := 65535, data := [],
    hasSyn := true, hasAck := true, hasFin := false, hasRst := false,
    hasPsh := false }

theorem tcp_active_open_witness :
    (connExample.state = TCPState.CLOSED ∧ connExample.seqNum = 1000 ∧
     connExample.initialSeq = 1000 ∧ 1000 + 1 < 4294967296 ∧
     2000 + 1 < 4294967296 ∧ connExample.mss < 65536 ∧
     connExample.srcPort < 65536 ∧ connExample.dstPort < 65536 ∧
     5 < 65536 ∧ 6 < 65536 ∧ synAckExample.hasSyn = true ∧
     synAckExample.hasAck = true ∧ synAckExample.seqNum = 2000) ∧
    ActiveOpenSpec connExample 1000 2000 0 1 5 6 synAckExample :=
  ⟨by decide,
   tcp_active_open connExample 1000 2000 0 1 5 6 synAckExample (by decide)
     (by decide) (by decide) (by decide) (by decide) (by decide) (by decide)
     (by decide) (by decide) (by decide) (by decide) (by decide) (by decide)⟩

/-! ## RTO clamp and retransmission sweep -/

/-- The accumulator of the retransmission sweep only prefixes the output. -/
theorem checkRetransmitGo_acc (now : ℚ) (l : List (Nat × List Nat × ℚ × Nat))
    (c : Conn) (acc : List (List Nat)) :
    checkRetransmitGo now l c acc =
      ((checkRetransmitGo now l c []).1,
        acc ++ (checkRetransmitGo now l c []).2) := by
  induction l generalizing c acc with
  | nil => simp [checkRetransmitGo]
  | cons hd tl ih =>
    obtain ⟨sn, pkt, t, r⟩ := hd
    simp only [checkRetransmitGo]
    split
    · split
      · rw [ih _ (acc ++ [pkt]), ih _ ([] ++ [pkt])]
        simp
      · rw [ih _ acc]
    · rw [ih _ acc]

/-- Each retransmitted packet doubles the RTO once: after a sweep the RTO is
the old RTO times `2 ^ (number of packets retransmitted)`. -/
theorem checkRetransmitGo_rto (now : ℚ) (l : List (Nat × List Nat × ℚ × Nat))
    (c : Conn) :
    (checkRetransmitGo now l c []).1.rto =
      c.rto * 2 ^ (checkRetransmitGo now l c []).2.length := by
  induction l generalizing c with
  | nil => simp [checkRetransmitGo]
  | cons hd tl ih =>
    obtain ⟨sn, pkt, t, r⟩ := hd
    simp only [checkRetransmitGo]
    split
    · split
      · rw [checkRetransmitGo_acc]
        simp only [List.length_append, List.nil_append, List.length_cons,
          List.length_nil, sendPacket]
        rw [ih]
        simp only [sendPacket]
        ring
      · rw [ih]
    · rw [ih]

/-- The sweep preserves `1 ≤ rto`. -/
theorem checkRetransmitGo_rto_ge_one (now : ℚ)
    (l : List (Nat × List Nat × ℚ × Nat)) (c : Conn) (acc : List (List Nat))
    (h : 1 ≤ c.rto) : 1 ≤ (checkRetransmitGo now l c acc).1.rto := by
  induction l generalizing c acc with
  | nil => simpa [checkRetransmitGo] using h
  | cons hd tl ih =>
    obtain ⟨sn, pkt, t, r⟩ := hd
    simp only [checkRetransmitGo]
    split
    · split
      · exact ih _ _ (by
          show (1 : ℚ) ≤ c.rto * 2
          nlinarith)
      · exact ih _ _ h
    · exact ih _ _ h

theorem updateRto_rto_bounds (rtt : ℚ) (c : Conn) :
    1 ≤ (c.updateRto rtt).rto ∧ (c.updateRto rtt).rto ≤ 60 := by
  unfold Conn.updateRto
  split
  · constructor
    · exact le_max_left _ _
    · exact max_le (by norm_num) (min_le_left _ _)
  · constructor
    · exact le_max_left _ _
    · exact max_le (by norm_num) (min_le_left _ _)

/-- C4 (amended).  The Jacobson/Karels estimator update clamps the RTO into
`[1 s, 60 s]`, and the retransmission sweep never drops it below 1 s; but
the sweep's exponential-backoff doubling is *not* clamped, so the RTO can
exceed 60 s after a timeout (see the counterexample). -/
theorem rto_clamp_amended :
    (∀ (c : Conn) (rtt : ℚ),
      1 ≤ (c.updateRto rtt).rto ∧ (c.updateRto rtt).rto ≤ 60) ∧
    (∀ (c : Conn) (now : ℚ), 1 ≤ c.rto →
      1 ≤ (c.checkRetransmit now).1.rto) :=
  ⟨fun c rtt => updateRto_rto_bounds rtt c,
   fun c now h => checkRetransmitGo_rto_ge_one now c.unacked c [] h⟩

theorem rto_clamp_amended_witness :
    (1 ≤ (connExample.updateRto 100).rto ∧
      (connExample.updateRto 100).rto ≤ 60) ∧
    (1 ≤ connExample.rto ∧
      1 ≤ (connExample.checkRetransmit 7).1.rto) :=
  ⟨rto_clamp_amended.1 connExample 100,
   ⟨by decide, rto_clamp_amended.2 connExample 7 (by decide)⟩⟩

/-- A connection whose RTO sits at the estimator's upper clamp 60 s (the
value `_update_rto` produces for any large RTT sample, as the first
conjunct of the counterexample shows), holding one unacked segment sent at
time 0. -/
def rtoOverConn : Conn :=
  { connExample with rto := 60, unacked := [(1000, ([0], 0, 0))] }

/-- C4, counterexample to the claim as stated: starting from the clamp
value 60 s (which the estimator yields for a 100 s RTT sample), the RTO
update performed by the retransmission-timeout backoff leaves the RTO at
120 s, outside `[1 s, 60 s]`: `check_retransmit` doubles without clamping. -/
theorem rto_clamp_counterexample :
    (connExample.updateRto 100).rto = rtoOverConn.rto ∧
    rtoOverConn.rto = 60 ∧
    (rtoOverConn.checkRetransmit 100).1.rto = 120 ∧
    ¬((rtoOverConn.checkRetransmit 100).1.rto ≤ 60) := by
  have hrto : rtoOverConn.rto = 60 := rfl
  have hcalc : (rtoOverConn.checkRetransmit 100).1.rto = 120 := by
    unfold Conn.checkRetransmit
    rw [show rtoOverConn.unacked = [(1000, ([0], 0, 0))] from rfl]
    simp only [checkRetransmitGo]
    rw [if_pos (show (100 : ℚ) - 0 > rtoOverConn.rto by rw [hrto]; norm_num),
      if_pos (show (0 : Nat) < 5 by norm_num)]
    simp only [checkRetransmitGo]
    show (sendPacket [0] rtoOverConn).rto * 2 = 120
    rw [show (sendPacket [0] rtoOverConn).rto = rtoOverConn.rto from rfl, hrto]
    norm_num
  refine ⟨?_, hrto, hcalc, by rw [hcalc]; norm_num⟩
  rw [hrto]
  show (connExample.updateRto 100).rto = 60
  unfold Conn.updateRto connExample
  norm_num

/-- C3 (amended).  In a retransmission sweep, (1) the RTO doubles once per
retransmitted segment — after the sweep it equals the old RTO times
`2 ^ (number of segments retransmitted)`, not a single doubling; (2) if the
oldest unacked segment has expired with fewer than 5 retries, it is the
first segment retransmitted; (3) for a single expired unacked segment: with
retries < 5 it is retransmitted with its retries counter incremented, its
timestamp reset and the RTO doubled, and at 5 retries the connection
transitions to CLOSED, the segment is dropped, and nothing is emitted (so
no sixth retransmission of it occurs). -/
theorem retransmit_amended :
    (∀ (now : ℚ) (c : Conn),
      (c.checkRetransmit now).1.rto =
        c.rto * 2 ^ (c.checkRetransmit now).2.length) ∧
    (∀ (now : ℚ) (c : Conn) (sn : Nat) (pkt : List Nat) (t : ℚ) (r : Nat)
      (rest : List (Nat × List Nat × ℚ × Nat)),
      c.unacked = (sn, pkt, t, r) :: rest → now - t > c.rto → r < 5 →
      (c.checkRetransmit now).2.head? = some pkt) ∧
    (∀ (now : ℚ) (c : Conn) (sn : Nat) (pkt : List Nat) (t : ℚ) (r : Nat),
      c.unacked = [(sn, pkt, t, r)] → now - t > c.rto →
      (r < 5 → c.checkRetransmit now =
        ({ sendPacket pkt c with
            unacked := [(sn, pkt, now, r + 1)]
            retransmits := c.retransmits + 1
            rto := c.rto * 2 }, [pkt])) ∧
      (5 ≤ r → c.checkRetransmit now =
        ({ c with state := TCPState.CLOSED, unacked := [] }, []))) := by
  refine ⟨?_, ?_, ?_⟩
  · intro now c
    exact checkRetransmitGo_rto now c.unacked c
  · intro now c sn pkt t r rest hun hexp hr
    unfold Conn.checkRetransmit
    rw [hun]
    simp only [checkRetransmitGo]
    rw [if_pos hexp, if_pos hr]
    rw [checkRetransmitGo_acc]
    simp
  · intro now c sn pkt t r hun hexp
    constructor
    · intro hr
      unfold Conn.checkRetransmit
      rw [hun]
      simp only [checkRetransmitGo]
      rw [if_pos hexp, if_pos hr]
      simp only [checkRetransmitGo, List.nil_append]
      simp [sendPacket, upsert, hun]
    · intro hr
      unfold Conn.checkRetransmit
      rw [hun]
      simp only [checkRetransmitGo]
      rw [if_pos hexp, if_neg (by omega)]
      simp [eraseKey, hun]

/-- A connection holding two unacked segments, both sent at time 0, with
RTO 1 s. -/
def retransExample : Conn :=
  { connExample with unacked := [(1000, ([1], 0, 0)), (1001, ([2], 0, 0))] }

/-- C3, counterexample to the claim as stated: a sweep at time 100 finds
two expired segments and retransmits both, so the RTO is multiplied by 4,
not doubled. -/
theorem retransmit_counterexample :
    retransExample.rto = 1 ∧
    (retransExample.checkRetransmit 100).2.length = 2 ∧
    (retransExample.checkRetransmit 100).1.rto = 4 ∧
    (retransExample.checkRetransmit 100).1.rto ≠ 2 * retransExample.rto := by
  have hlen : (retransExample.checkRetransmit 100).2 = [[1], [2]] := by
    unfold Conn.checkRetransmit
    rw [show retransExample.unacked =
      [(1000, ([1], 0, 0)), (1001, ([2], 0, 0))] from rfl]
    simp only [checkRetransmitGo]
    rw [if_pos (show (100 : ℚ) - 0 > retransExample.rto by
      rw [show retransExample.rto = 1 from rfl]; norm_num)]
    rw [if_pos (show (0 : Nat) < 5 by norm_num)]
    simp only [checkRetransmitGo, List.nil_append]
    rw [if_pos (show (100 : ℚ) - 0 >
      (sendPacket [1] retransExample).rto * 2 by
      rw [show (sendPacket [1] retransExample).rto = 1 from rfl]; norm_num)]
    rw [if_pos (show (0 : Nat) < 5 by norm_num)]
    simp only [checkRetransmitGo]
    rfl
  have hrto : (retransExample.checkRetransmit 100).1.rto = 4 := by
    have := checkRetransmitGo_rto 100 retransExample.unacked retransExample
    unfold Conn.checkRetransmit at hlen ⊢
    rw [this, hlen]
    rw [show retransExample.rto = 1 from rfl]
    norm_num
  refine ⟨rfl, by rw [hlen]; rfl, hrto, by
    rw [hrto, show retransExample.rto = 1 from rfl]; norm_num⟩

/-- A connection holding a single unacked segment sent at time 0. -/
def singleRetransConn : Conn :=
  { connExample with unacked := [(1000, ([9], 0, 0))] }

theorem retransmit_amended_witness :
    (singleRetransConn.unacked = [(1000, ([9], 0, 0))] ∧
     (100 : ℚ) - 0 > singleRetransConn.rto ∧ (0 : Nat) < 5) ∧
    singleRetransConn.checkRetransmit 100 =
      ({ sendPacket [9] singleRetransConn with
          unacked := [(1000, ([9], 100, 0 + 1))]
          retransmits := singleRetransConn.retransmits + 1
          rto := singleRetransConn.rto * 2 }, [[9]]) :=
  ⟨⟨rfl, by rw [show singleRetransConn.rto = 1 from rfl]; norm_num,
    by norm_num⟩,
   (retransmit_amended.2.2 100 singleRetransConn 1000 [9] 0 0 rfl
      (by rw [show singleRetransConn.rto = 1 from rfl]; norm_num)).1
     (by norm_num)⟩

/-! ## Receive-buffer semantics (`TCPConnection.receive`) -/

/-- C10.  `receive(max_bytes)` clears the entire receive buffer, returns at
most `max_bytes` of the joined buffered data (namely its `max_bytes`-byte
prefix), and whatever was buffered beyond `max_bytes` is discarded: an
immediately following `receive` returns the empty byte string. -/
theorem receive_clears_and_truncates (maxBytes : Nat) (c : Conn) :
    ((c.receive maxBytes).2).recvBuffer = [] ∧
    (c.receive maxBytes).1.length ≤ maxBytes ∧
    (c.receive maxBytes).1 = c.recvBuffer.flatten.take maxBytes ∧
    ∀ m2 : Nat, (((c.receive maxBytes).2).receive m2).1 = [] := by
  unfold Conn.receive
  by_cases h : c.recvBuffer.isEmpty
  · have hnil : c.recvBuffer = [] := List.isEmpty_iff.mp h
    simp [h, hnil]
  · rw [if_neg h]
    refine ⟨rfl, ?_, rfl, ?_⟩
    · simp only [List.length_take]
      exact Nat.min_le_left _ _
    · intro m2
      simp [Conn.receive]

/-! ## Parser totality (claim C5)

`BGPMessage.parse` is a total function into `Option`: every failure —
short buffer, bad marker, length past the end — is the *returned value*
`none` (see its definition above).  `TCPPacket.parse`, by contrast, has no
guard at all: on any buffer shorter than the 40 bytes its two
`struct.unpack` calls consume, `struct.error` propagates to the caller,
modelled by `Except.error`. -/
theorem tcp_parse_raises_on_truncated :
    tcpParse [] = .error () ∧
    tcpParse (List.replicate 39 0) = .error () ∧
    BGPMessage.parse [] = none ∧
    BGPMessage.parse (List.replicate 18 255) = none := by
  exact ⟨rfl, rfl, rfl, rfl⟩

/-! ## Impairment drop decision (`network_impairments.py`)

The state slice read and written by `PacketImpairment._should_drop_packet`:
`burst_loss_percent`, `burst_loss_length` (default 3 in `__init__`),
`packet_loss_percent`, `in_burst_loss` and `burst_loss_counter`.  The two
`random.random()` draws a call can consume are explicit arguments: `u1` for
the burst-entry decision, `u2` for the regular-loss decision; each lies in
`[0, 1)` and the code compares `u * 100 < percent`. -/

structure DropState where
  burstLossPercent : ℚ
  burstLossLength : Int
  packetLossPercent : ℚ
  inBurstLoss : Bool
  burstLossCounter : Int
deriving DecidableEq, Repr

/-- `PacketImpairment._should_drop_packet`: while in burst loss, decrement
the counter (leaving the burst state when it reaches 0) and drop; otherwise
with probability `burst_loss_percent` enter burst loss for
`burst_loss_length` frames and drop; otherwise fall through to the regular
random loss check. -/
def shouldDropPacket (u1 u2 : ℚ) (s : DropState) : Bool × DropState :=
  if s.burstLossPercent > 0 then
    if s.inBurstLoss then
      let counter := s.burstLossCounter - 1
      (true, { s with
        burstLossCounter := counter
        inBurstLoss := if counter ≤ 0 then false else s.inBurstLoss })
    else if u1 * 100 < s.burstLossPercent then
      (true, { s with
        inBurstLoss := true
        burstLossCounter := s.burstLossLength })
    else if u2 * 100 < s.packetLossPercent then (true, s)
    else (false, s)
  else if u2 * 100 < s.packetLossPercent then (true, s)
  else (false, s)

/-- A sequence of frames through the drop decision, one pair of potential
draws per frame. -/
def runDrops : List (ℚ × ℚ) → DropState → List Bool × DropState
  | [], s => ([], s)
  | (u1, u2) :: rest, s =>
    let step := shouldDropPacket u1 u2 s
    let more := runDrops rest step.2
    (step.1 :: more.1, more.2)

/-- Inside the burst state with counter `k ≥ 1`, the next `k` frames are
all dropped and the pipeline then leaves the burst state with counter 0. -/
theorem runDrops_in_burst (k : Nat) (hk : 1 ≤ k) (ds : List (ℚ × ℚ))
    (hlen : ds.length = k) (s : DropState) (hb : s.inBurstLoss = true)
    (hc : s.burstLossCounter = (k : Int)) (hp : s.burstLossPercent > 0) :
    (runDrops ds s).1 = List.replicate k true ∧
    (runDrops ds s).2.inBurstLoss = false ∧
    (runDrops ds s).2.burstLossCounter = 0 := by
  induction ds generalizing k s with
  | nil =>
    simp only [List.length_nil] at hlen
    omega
  | cons hd tl ih =>
    obtain ⟨u1, u2⟩ := hd
    simp only [runDrops, shouldDropPacket]
    rw [if_pos hp, if_pos hb]
    by_cases hk1 : k = 1
    · subst hk1
      have htl : tl = [] := by
        cases tl with
        | nil => rfl
        | cons a b => simp at hlen
      subst htl
      simp only [runDrops]
      refine ⟨by simp, ?_, ?_⟩
      · show (if s.burstLossCounter - 1 ≤ 0 then false else s.inBurstLoss) =
          false
        rw [if_pos (by omega)]
      · show s.burstLossCounter - 1 = 0
        omega
    · have hk2 : 2 ≤ k := by omega
      have hcond : ¬(s.burstLossCounter - 1 ≤ 0) := by omega
      have hstep := ih (k - 1) (by omega) (by simp at hlen; omega)
        ({ s with
          burstLossCounter := s.burstLossCounter - 1
          inBurstLoss := if s.burstLossCounter - 1 ≤ 0 then false
            else s.inBurstLoss })
        (by show (if s.burstLossCounter - 1 ≤ 0 then false else s.inBurstLoss) =
              true
            rw [if_neg hcond]; exact hb)
        (by show s.burstLossCounter - 1 = ((k - 1 : Nat) : Int); omega)
        hp
      refine ⟨?_, hstep.2.1, hstep.2.2⟩
      rw [show k = (k - 1) + 1 by omega, List.replicate_succ]
      exact congrArg _ hstep.1

/-- C6 (amended).  With `burst_loss_percent > 0`, a frame whose draw fires
the burst-entry branch is dropped and starts a burst of
`burst_loss_length = L ≥ 1` further dropped frames: each entry into burst
loss drops `L + 1` consecutive frames (the entering frame plus `L` more),
after which the pipeline has left the burst state with the counter at 0.
With the default `burst_loss_length = 3` that is 4 consecutive drops, not
3. -/
theorem burst_loss_amended (s : DropState) (u1 u2 : ℚ)
    (rest : List (ℚ × ℚ)) (L : Nat)
    (hp : s.burstLossPercent > 0) (hnb : s.inBurstLoss = false)
    (hfire : u1 * 100 < s.burstLossPercent)
    (hL : s.burstLossLength = (L : Int)) (hL1 : 1 ≤ L)
    (hlen : rest.length = L) :
    (runDrops ((u1, u2) :: rest) s).1 = List.replicate (L + 1) true ∧
    (runDrops ((u1, u2) :: rest) s).2.inBurstLoss = false ∧
    (runDrops ((u1, u2) :: rest) s).2.burstLossCounter = 0 := by
  simp only [runDrops, shouldDropPacket]
  rw [if_pos hp, if_neg (by rw [hnb]; simp), if_pos hfire]
  have hstep := runDrops_in_burst L hL1 rest hlen
    ({ s with inBurstLoss := true, burstLossCounter := s.burstLossLength })
    rfl (by show s.burstLossLength = (L : Int); exact hL) hp
  refine ⟨?_, hstep.2.1, hstep.2.2⟩
  rw [List.replicate_succ]
  exact congrArg _ hstep.1

/-- The drop-decision state slice as `__init__` leaves it (default
`burst_loss_length = 3`) with burst loss probability raised to 50 %. -/
def impairExample : DropState :=
  { burstLossPercent := 50, burstLossLength := 3, packetLossPercent := 0,
    inBurstLoss := false, burstLossCounter := 0 }

/-- C6, counterexample to the claim as stated: with `burst_length = 3`, the
entry into burst loss at the first frame drops 4 consecutive frames (the
entering frame plus 3), not exactly 3, before the pipeline leaves the burst
state. -/
theorem burst_loss_counterexample :
    impairExample.burstLossLength = 3 ∧
    (runDrops [(0, 99/100), (99/100, 99/100), (99/100, 99/100),
      (99/100, 99/100), (99/100, 99/100)] impairExample).1 =
      [true, true, true, true, false] := by
  constructor
  · rfl
  · norm_num [runDrops, shouldDropPacket, impairExample]

theorem burst_loss_amended_witness :
    (impairExample.burstLossPercent > 0 ∧ impairExample.inBurstLoss = false ∧
     (0 : ℚ) * 100 < impairExample.burstLossPercent ∧
     impairExample.burstLossLength = ((3 : Nat) : Int) ∧ (1 : Nat) ≤ 3 ∧
     ([((99 : ℚ)/100, (99 : ℚ)/100), (99/100, 99/100),
       (99/100, 99/100)] : List (ℚ × ℚ)).length = 3) ∧
    ((runDrops ((0, 99/100) :: [((99 : ℚ)/100, (99 : ℚ)/100),
        (99/100, 99/100), (99/100, 99/100)]) impairExample).1 =
      List.replicate (3 + 1) true ∧
     (runDrops ((0, 99/100) :: [((99 : ℚ)/100, (99 : ℚ)/100),
        (99/100, 99/100), (99/100, 99/100)]) impairExample).2.inBurstLoss =
      false ∧
     (runDrops ((0, 99/100) :: [((99 : ℚ)/100, (99 : ℚ)/100),
        (99/100, 99/100), (99/100, 99/100)]) impairExample).2.burstLossCounter
      = 0) :=
  ⟨⟨by norm_num [impairExample], rfl, by norm_num [impairExample], rfl,
    by norm_num, rfl⟩,
   burst_loss_amended impairExample 0 (99/100)
     [((99 : ℚ)/100, (99 : ℚ)/100), (99/100, 99/100), (99/100, 99/100)] 3
     (by norm_num [impairExample]) rfl (by norm_num [impairExample]) rfl
     (by norm_num) rfl⟩

/-! ## Worker batch sizing (`traffic_engine_unified.py`, `_traffic_worker`) -/

/-- `packets_per_second = (bandwidth_mbps * 1_000_000) / (packet_size * 8)`. -/
def packetsPerSecond (bandwidthMbps packetSize : ℚ) : ℚ :=
  bandwidthMbps * 1000000 / (packetSize * 8)

/-- The adaptive batch sizing of `_traffic_worker`: rate above 100 kpps
gives 128, above 10 kpps gives 64, else 32, each capped by the profile's
`batch_size` through `min`. -/
def workerBatchSize (pps : ℚ) (profileBatchSize : Nat) : Nat :=
  if pps > 100000 then min profileBatchSize 128
  else if pps > 10000 then min profileBatchSize 64
  else min profileBatchSize 32

/-- C7.  For every profile, the worker batch size is 128 when the computed
packet rate exceeds 100 000 pps, 64 when it exceeds 10 000 pps (but not
100 000), and 32 otherwise — in each case capped by the profile-supplied
batch-size ceiling via `min`. -/
theorem worker_batch_size_spec (bandwidthMbps packetSize : ℚ)
    (ceiling : Nat) :
    (packetsPerSecond bandwidthMbps packetSize > 100000 →
      workerBatchSize (packetsPerSecond bandwidthMbps packetSize) ceiling =
        min ceiling 128) ∧
    (¬(packetsPerSecond bandwidthMbps packetSize > 100000) →
      packetsPerSecond bandwidthMbps packetSize > 10000 →
      workerBatchSize (packetsPerSecond bandwidthMbps packetSize) ceiling =
        min ceiling 64) ∧
    (¬(packetsPerSecond bandwidthMbps packetSize > 10000) →
      workerBatchSize (packetsPerSecond bandwidthMbps packetSize) ceiling =
        min ceiling 32) := by
  refine ⟨fun h => by simp [workerBatchSize, h],
    fun h1 h2 => by simp [workerBatchSize, h1, h2],
    fun h2 => ?_⟩
  have h1 : ¬(packetsPerSecond bandwidthMbps packetSize > 100000) := by
    intro hc
    exact h2 (lt_trans (by norm_num) hc)
  simp [workerBatchSize, h1, h2]

theorem worker_batch_size_witness :
    (packetsPerSecond 1000 64 > 100000 ∧
      workerBatchSize (packetsPerSecond 1000 64) 256 = min 256 128) ∧
    (¬(packetsPerSecond 100 1000 > 100000) ∧ packetsPerSecond 100 1000 > 10000 ∧
      workerBatchSize (packetsPerSecond 100 1000) 256 = min 256 64) ∧
    (¬(packetsPerSecond 1 1400 > 10000) ∧
      workerBatchSize (packetsPerSecond 1 1400) 256 = min 256 32) :=
  ⟨⟨by norm_num [packetsPerSecond],
    (worker_batch_size_spec 1000 64 256).1 (by norm_num [packetsPerSecond])⟩,
   ⟨by norm_num [packetsPerSecond], by norm_num [packetsPerSecond],
    (worker_batch_size_spec 100 1000 256).2.1
      (by norm_num [packetsPerSecond]) (by norm_num [packetsPerSecond])⟩,
   ⟨by norm_num [packetsPerSecond],
    (worker_batch_size_spec 1 1400 256).2.2
      (by norm_num [packetsPerSecond])⟩⟩

/-! ## RFC 2544 throughput binary search (`traffic_engine.py`)

The `while max_rate - min_rate > 0.1` loop of
`RFC2544Tester.run_throughput_test`, with the measured loss at a trial
rate abstracted as a function `loss : ℚ → ℚ` — `_measure_loss_rate`
performs socket I/O and sleeping, so the search is verified for every
possible (deterministic) measurement outcome.  `fuel` bounds the number of
iterations; the width theorem shows that any `fuel` with
`nominal_rate ≤ 2 ^ fuel / 10` makes the loop exit through its width
condition, which is the loop's termination. -/

def throughputStep (loss : ℚ → ℚ) : Nat → ℚ → ℚ → ℚ × ℚ
  | 0, lo, hi => (lo, hi)
  | fuel + 1, lo, hi =>
    if hi - lo > 1/10 then
      if loss ((lo + hi) / 2) ≤ 1/1000 then
        throughputStep loss fuel ((lo + hi) / 2) hi
      else throughputStep loss fuel lo ((lo + hi) / 2)
    else (lo, hi)

/-- The binary search over `[0, nominal_rate]` with loss threshold 0.001
and resolution 0.1 Mb/s. -/
def runThroughputSearch (loss : ℚ → ℚ) (bandwidthMbps : ℚ) (fuel : Nat) :
    ℚ × ℚ :=
  throughputStep loss fuel 0 bandwidthMbps

theorem throughputStep_width (loss : ℚ → ℚ) (fuel : Nat) :
    ∀ lo hi : ℚ, hi - lo ≤ 2 ^ fuel * (1/10) →
      (throughputStep loss fuel lo hi).2 -
        (throughputStep loss fuel lo hi).1 ≤ 1/10 := by
  induction fuel with
  | zero =>
    intro lo hi h
    simpa [throughputStep] using h.trans_eq (by norm_num)
  | succ f ih =>
    intro lo hi h
    simp only [throughputStep]
    split
    · split
      · exact ih _ _ (by rw [pow_succ] at h; linarith)
      · exact ih _ _ (by rw [pow_succ] at h; linarith)
    · linarith [not_lt.mp (by assumption : ¬(hi - lo > 1/10))]

theorem throughputStep_lo_inv (loss : ℚ → ℚ) (fuel : Nat) :
    ∀ lo hi : ℚ, (lo = 0 ∨ loss lo ≤ 1/1000) →
      ((throughputStep loss fuel lo hi).1 = 0 ∨
        loss (throughputStep loss fuel lo hi).1 ≤ 1/1000) := by
  induction fuel with
  | zero =>
    intro lo hi h
    simpa [throughputStep] using h
  | succ f ih =>
    intro lo hi h
    simp only [throughputStep]
    split
    · split
      · exact ih _ _ (Or.inr (by assumption))
      · exact ih _ _ h
    · exact h

/-- C8.  For every nominal rate `R ≥ 0` and every measured-loss outcome,
once the iteration bound covers `R ≤ 2 ^ fuel / 10` the binary search over
`[0, R]` exits through its width condition with final interval width
≤ 0.1 Mb/s, and the reported maximum throughput (the final `min_rate`) is
either 0 or a trial rate at which the measured frame loss was ≤ the 0.001
threshold. -/
theorem rfc2544_throughput_search (loss : ℚ → ℚ) (R : ℚ) (fuel : Nat)
    (_hR : 0 ≤ R) (hfuel : R ≤ 2 ^ fuel * (1/10)) :
    ((runThroughputSearch loss R fuel).2 -
      (runThroughputSearch loss R fuel).1 ≤ 1/10) ∧
    ((runThroughputSearch loss R fuel).1 = 0 ∨
      loss (runThroughputSearch loss R fuel).1 ≤ 1/1000) :=
  ⟨throughputStep_width loss fuel 0 R (by linarith),
   throughputStep_lo_inv loss fuel 0 R (Or.inl rfl)⟩

theorem rfc2544_throughput_search_witness :
    ((0 : ℚ) ≤ 100 ∧ (100 : ℚ) ≤ 2 ^ 10 * (1/10)) ∧
    (((runThroughputSearch (fun _ => 0) 100 10).2 -
       (runThroughputSearch (fun _ => 0) 100 10).1 ≤ 1/10) ∧
     ((runThroughputSearch (fun _ => 0) 100 10).1 = 0 ∨
       (fun _ => (0 : ℚ)) (runThroughputSearch (fun _ => 0) 100 10).1 ≤
         1/1000)) :=
  ⟨⟨by norm_num, by norm_num⟩,
   rfc2544_throughput_search (fun _ => 0) 100 10 (by norm_num) (by norm_num)⟩

/-! ## Packet memory pool (`traffic_engine_highperf.py`, `PacketMemPool`) -/

/-- The pool state: capacity, buffer size and the FIFO free list of buffer
indices.  (The mmap'd backing memory holds no information relevant to
allocation; the free list is `Queue(maxsize=num_packets)`.) -/
structure PacketMemPool where
  numPackets : Nat
  packetSize : Nat
  freePackets : List Nat
deriving DecidableEq, Repr

/-- `PacketMemPool.__init__` (defaults `num_packets=16384`,
`packet_size=2048`): every index enters the free queue. -/
def PacketMemPool.init (numPackets packetSize : Nat) : PacketMemPool :=
  { numPackets := numPackets, packetSize := packetSize,
    freePackets := List.range numPackets }

/-- `alloc_packet`: `get_nowait` returns the front index, or raises `Empty`
which is caught and turned into the returned value `None` — the caller is
never blocked. -/
def PacketMemPool.allocPacket (p : PacketMemPool) :
    Option Nat × PacketMemPool :=
  match p.freePackets with
  | [] => (none, p)
  | i :: rest => (some i, { p with freePackets := rest })

/-- `free_packet`: `put_nowait` appends at the back; a full queue's
exception is swallowed. -/
def PacketMemPool.freePacket (p : PacketMemPool) (idx : Nat) : PacketMemPool :=
  if p.numPackets ≤ p.freePackets.length then p
  else { p with freePackets := p.freePackets ++ [idx] }

/-- C9.  Allocation from an empty free list immediately returns `None`
(a value, no blocking) and leaves the pool unchanged; allocation from a
non-empty free list returns the front buffer index. -/
theorem pool_alloc_spec (p : PacketMemPool) :
    (p.freePackets = [] → p.allocPacket = (none, p)) ∧
    (∀ i rest, p.freePackets = i :: rest →
      p.allocPacket = (some i, { p with freePackets := rest })) := by
  constructor
  · intro h
    unfold PacketMemPool.allocPacket
    rw [h]
  · intro i rest h
    unfold PacketMemPool.allocPacket
    rw [h]

theorem pool_alloc_witness :
    ((PacketMemPool.init 0 2048).freePackets = [] ∧
     (PacketMemPool.init 0 2048).allocPacket =
       (none, PacketMemPool.init 0 2048)) ∧
    ((PacketMemPool.init 2 2048).freePackets = 0 :: [1] ∧
     (PacketMemPool.init 2 2048).allocPacket =
       (some 0, { PacketMemPool.init 2 2048 with freePackets := [1] })) :=
  ⟨⟨by decide, (pool_alloc_spec _).1 (by decide)⟩,
   ⟨by decide, (pool_alloc_spec _).2 0 [1] (by decide)⟩⟩

end Netgen
